import Mathlib

/-!
Shallow embedding of the Lead Nurturing Engine of `lead_nurturer.py`
(class `LeadNurturer`): the reply classifier and lead mutation of
`_process_response`, the paginated, deduplicating poll loop of
`check_for_responses` together with its sync-state commit, the follow-up
scheduler `run_follow_up_sequence` / `_send_follow_up`, the persistence
pair `_save_leads` / `_load_leads`, and the orchestrator
`run_nurturing_cycle`.

Modelling conventions:
* timestamps are seconds as `Nat` (`datetime` values; `isoformat` /
  `fromisoformat` round-trip losslessly, so serialized timestamps are kept
  as `Option Nat` rather than strings);
* message identifiers are `Nat` (opaque tokens in the source);
* the Python dict keyed by e-mail is an association list with
  dict-assignment semantics (`insKey` keeps the position of an existing
  key, appends a fresh one);
* the Gmail service is replaced by the data it yields: a poll is driven by
  a list of fetch results, where `FetchRes.failure` marks the point at
  which a provider call raises (the `except` clause of
  `check_for_responses` then takes over);
* `list(processed_ids)` enumerates a Python `set`, whose iteration order
  is unspecified; the enumeration is therefore an explicit argument
  (`enum`), constrained in the theorems to be a permutation of the
  insertion-ordered identifiers;
* sender extraction from the `From:` header (the regex on line 262) is
  abstracted: `Message.sender` already holds the extracted, lowercased
  address, or `none` when the header is absent;
* `_get_message_body` is abstracted: `Message.body` holds its result,
  which is `""` when the body is absent or unparseable (line 362).
-/

namespace LeadNurture

/-- Python `s.lower()`: per-character lowercasing. (Equivalent to
`String.toLower`, i.e. `String.map Char.toLower`, but stated directly on
the character list.) -/
def pyLower (s : String) : String := ⟨s.data.map Char.toLower⟩

/-- Python `w in s` on strings: `w` occurs contiguously in `s`.
`matchesAt w s` checks that `w` is an initial segment of `s`. -/
def matchesAt : List Char → List Char → Bool
  | [], _ => true
  | _ :: _, [] => false
  | c :: cs, d :: ds => c = d && matchesAt cs ds

/-- Scan of `s` for an occurrence of `w` at any position. -/
def occursIn (w : List Char) : List Char → Bool
  | [] => matchesAt w []
  | s@(_ :: tail) => matchesAt w s || occursIn w tail

/-- Python substring test `w in s`. -/
def strOccurs (w s : String) : Bool := occursIn w.data s.data

/-- The `Lead` dataclass (lines 25-35). `status` ranges over the strings
`new, contacted, responded, interested, not_interested, scheduled`. -/
structure Lead where
  email : String
  first_name : String
  company : String
  status : String := "new"
  last_contact : Option Nat := none
  response_count : Nat := 0
  follow_up_count : Nat := 0
  lead_score : Int := 0
  notes : String := ""
deriving DecidableEq, Repr

/-- The configuration sections `_process_response` and
`run_follow_up_sequence` read, with the defaults the `.get` calls supply
when `nurturing_config.json` is missing a key (lines 301-308, 400-407). -/
structure Config where
  interested_words : List String := ["interested", "yes", "demo", "call", "meeting", "schedule", "book"]
  not_interested_words : List String := ["not interested", "no thanks", "stop", "unsubscribe", "remove"]
  response_bonus : Int := 10
  interest_bonus : Int := 5
  followup_1_days : Nat := 3
  followup_2_days : Nat := 7
  max_follow_ups : Nat := 2
  auto_send_follow_ups : Bool := true
  auto_respond_to_interest : Bool := true
deriving Repr

/-- The fully defaulted configuration (empty `nurturing_config.json`). -/
def defaultConfig : Config := {}

/-- A classification outcome of an inbound reply body. -/
inductive Outcome where
  | interested
  | notInterested
  | neutral
deriving DecidableEq, Repr

/-- The keyword branch of `_process_response` (lines 298-314): the body is
lowercased (Python `body.lower()`; `String.toLower` likewise lowercases
per character) and matched by substring against the two keyword lists,
`interested` first, falling through to `neutral`. The keywords themselves
are matched verbatim, not lowercased. -/
def classify (cfg : Config) (body : String) : Outcome :=
  let lower := pyLower body
  if cfg.interested_words.any (fun w => strOccurs w lower) then Outcome.interested
  else if cfg.not_interested_words.any (fun w => strOccurs w lower) then Outcome.notInterested
  else Outcome.neutral

/-- `_process_response` (lines 290-317): increments `response_count`, sets
`last_contact` to now, adjusts score and status per the classification
branch, and appends a note line. `now` is the `datetime.now()` timestamp,
`today` its `%Y-%m-%d` rendering. The automated acknowledgement sent in
the interested branch (`_send_automated_response`) mutates no lead state
and swallows its own exceptions, so it does not appear in the lead
transition. -/
def process_response (cfg : Config) (now : Nat) (today : String)
    (subject : String) (body : String) (lead : Lead) : Lead :=
  let l1 : Lead := { lead with response_count := lead.response_count + 1, last_contact := some now }
  let l2 : Lead :=
    match classify cfg body with
    | Outcome.interested =>
        { l1 with status := "interested",
                  lead_score := l1.lead_score + cfg.response_bonus + cfg.interest_bonus }
    | Outcome.notInterested =>
        { l1 with status := "not_interested", lead_score := l1.lead_score - 5 }
    | Outcome.neutral =>
        { l1 with lead_score := l1.lead_score + 2 }
  { l2 with notes := l2.notes ++ "\n" ++ today ++ ": Response received - " ++ subject }

/-! Association-list model of a Python dict keyed by e-mail address. -/

/-- First value stored under key `k` (dicts have unique keys, so the first
binding is the binding). -/
def findKey : List (String × α) → String → Option α
  | [], _ => none
  | p :: rest, k => if p.1 = k then some p.2 else findKey rest k

/-- Python `k in d`. -/
def hasKey (m : List (String × α)) (k : String) : Bool := (findKey m k).isSome

/-- In-place update of the value stored under `k` (no-op on absent keys). -/
def updKey (m : List (String × α)) (k : String) (f : α → α) : List (String × α) :=
  m.map (fun p => if p.1 = k then (p.1, f p.2) else p)

/-- Python dict assignment `d[k] = v`: an existing key keeps its position,
a fresh key is appended. -/
def insKey (m : List (String × α)) (k : String) (v : α) : List (String × α) :=
  if hasKey m k then updKey m k (fun _ => v) else m ++ [(k, v)]

/-- The lead map `self.leads`. -/
abbrev LeadsMap := List (String × Lead)

/-- `gmail_sync_state.json` (`_load_sync_state`, lines 110-115):
`last_checked_iso` and `processed_message_ids`. -/
structure SyncState where
  last_checked : Option Nat
  processed_message_ids : List Nat
deriving DecidableEq, Repr

/-- One inbound message as the poll loop sees it after fetching: id, the
e-mail address extracted from the `From:` header (lowercased; `none` when
the header is missing), subject and extracted body. -/
structure Message where
  id : Nat
  sender : Option String
  subject : String
  body : String

/-- One step of the provider interaction during a poll: either a fetched
message, or the point at which a provider call raises (`HttpError` or any
other exception), sending `check_for_responses` into its `except` arm. -/
inductive FetchRes where
  | msg (m : Message)
  | failure

/-- Result of the page loop of `check_for_responses` (lines 238-274):
the processed-id set in insertion order, the mutated lead map, and
whether the loop ran to completion (`false` = an exception fired). -/
structure PollOut where
  processed : List Nat
  leads : LeadsMap
  ok : Bool

/-- The page loop of `check_for_responses` (lines 238-274): each message
id already in `processed_ids` is skipped (`continue`, line 246); a message
with no sender is skipped; a message from an address not in `self.leads`
is skipped (and its id is NOT recorded); otherwise `_process_response`
runs and the id is added to the set. A `failure` item aborts the loop with
the mutations made so far (the surrounding `try` ends at line 283). -/
def pollLoop (cfg : Config) (now : Nat) (today : String) :
    List Nat → LeadsMap → List FetchRes → PollOut
  | ids, leads, [] => ⟨ids, leads, true⟩
  | ids, leads, FetchRes.failure :: _ => ⟨ids, leads, false⟩
  | ids, leads, FetchRes.msg m :: rest =>
      if m.id ∈ ids then pollLoop cfg now today ids leads rest
      else
        match m.sender with
        | none => pollLoop cfg now today ids leads rest
        | some s =>
            if hasKey leads s then
              pollLoop cfg now today (ids ++ [m.id])
                (updKey leads s (fun l => process_response cfg now today m.subject m.body l)) rest
            else pollLoop cfg now today ids leads rest

/-- `latest_ids[-500:]` guarded by the length check (lines 279-281): keep
only the last 500 elements of the enumerated id list. -/
def truncate500 (ids : List Nat) : List Nat :=
  if ids.length > 500 then ids.drop (ids.length - 500) else ids

/-- The sync-state commit at the end of a successful poll (lines 276-282):
`last_checked_iso` becomes the poll time and `processed_message_ids`
becomes the truncated enumeration `list(processed_ids)` of the Python
set. The enumeration order of a Python `set` is unspecified, so the
enumerated list `enumIds` is an explicit input here. -/
def commitSync (now : Nat) (enumIds : List Nat) : SyncState :=
  { last_checked := some now, processed_message_ids := truncate500 enumIds }

/-- Engine state split into in-memory structures (`self.leads`,
`self.sync_state`) and their on-disk snapshots (`lead_tracking.json`,
`gmail_sync_state.json`). -/
structure TrackRec where
  status : String
  last_contact : Option Nat
  response_count : Nat
  follow_up_count : Nat
  lead_score : Int
  notes : String
deriving DecidableEq, Repr

structure EngineState where
  leads : LeadsMap
  sync : SyncState
  diskLeads : List (String × TrackRec)
  diskSync : SyncState

/-- `check_for_responses` (lines 212-288): run the page loop from the
persisted processed ids; if it completes, commit the sync state (memory
and disk, `_save_sync_state`); if an exception fired anywhere inside the
`try`, fall into the `except` arm, which only logs — the sync state is
left untouched in memory and on disk, while the lead mutations already
applied remain in `self.leads`. `enum` models the unspecified iteration
order of `list(processed_ids)`. -/
def check_for_responses (cfg : Config) (now : Nat) (today : String)
    (enum : List Nat → List Nat) (st : EngineState) (inbox : List FetchRes) : EngineState :=
  let out := pollLoop cfg now today st.sync.processed_message_ids st.leads inbox
  if out.ok then
    let newSync := commitSync now (enum out.processed)
    { st with leads := out.leads, sync := newSync, diskSync := newSync }
  else
    { st with leads := out.leads }

/-! The follow-up scheduler. -/

/-- Outcome of the provider send call inside `_send_follow_up`. -/
inductive SendResult where
  | ok
  | error

/-- `(now - last_contact).days` with timestamps in seconds. -/
def elapsedDays (now lastc : Nat) : Nat := (now - lastc) / 86400

/-- The per-lead body of `run_follow_up_sequence` (lines 399-420) together
with `_send_follow_up` (lines 422-450). `_send_follow_up` catches every
exception from the provider send internally (line 449) and returns
normally, so the caller increments `follow_up_count` and updates
`last_contact` whether or not the send succeeded: the outcome of
`send email` is discarded. Returns the updated lead and the list of
follow-up templates whose send was attempted this cycle. -/
def followUpOne (cfg : Config) (now : Nat) (send : String → SendResult)
    (email : String) (lead : Lead) : Lead × List String :=
  if cfg.auto_send_follow_ups = true then
    if lead.status = "new" ∨ lead.status = "contacted" then
      match lead.last_contact with
      | none => (lead, [])
      | some lc =>
          if elapsedDays now lc ≥ cfg.followup_1_days ∧ lead.follow_up_count = 0 then
            let _ := send email
            ({ lead with follow_up_count := 1, last_contact := some now }, ["followup_1"])
          else if elapsedDays now lc ≥ cfg.followup_2_days ∧ lead.follow_up_count = 1 then
            let _ := send email
            let l2 : Lead := { lead with follow_up_count := 2, last_contact := some now }
            ((if cfg.max_follow_ups ≤ 2 then { l2 with status := "not_interested" } else l2),
              ["followup_2"])
          else (lead, [])
    else (lead, [])
  else (lead, [])

/-- `run_follow_up_sequence` (lines 395-420): apply the per-lead decision
to every lead of the map; also collect the attempted sends
`(email, template)` in map order. -/
def run_follow_up_sequence (cfg : Config) (now : Nat) (send : String → SendResult)
    (leads : LeadsMap) : LeadsMap × List (String × String) :=
  (leads.map (fun p => (p.1, (followUpOne cfg now send p.1 p.2).1)),
   leads.foldr
     (fun p acc => ((followUpOne cfg now send p.1 p.2).2.map (fun t => (p.1, t))) ++ acc) [])

/-! Persistence: `_load_leads` / `_save_leads`. -/

/-- One row of `contacts.csv`; `toAddr` is the `to` column. -/
structure ContactRow where
  toAddr : String
  first_name : String
  company : String

/-- Python `s.strip()`: drop leading and trailing whitespace. (Equivalent
to `String.trim`, stated directly on the character list.) -/
def pyStrip (s : String) : String :=
  ⟨((s.data.dropWhile Char.isWhitespace).reverse.dropWhile Char.isWhitespace).reverse⟩

/-- `row['to'].strip().lower()` (line 74). -/
def normEmail (s : String) : String := pyLower (pyStrip s)

/-- First phase of `_load_leads` (lines 69-81): build the dict from the
contact rows; a later row with the same normalized address overwrites an
earlier one (dict assignment). -/
def leadsFromContacts (rows : List ContactRow) : LeadsMap :=
  rows.foldl
    (fun m row =>
      insKey m (normEmail row.toAddr)
        { email := normEmail row.toAddr, first_name := row.first_name, company := row.company })
    []

/-- Overwrite a lead's tracked fields from a tracking record
(lines 89-94). -/
def applyTrackingRec (l : Lead) (d : TrackRec) : Lead :=
  { l with status := d.status, last_contact := d.last_contact,
           response_count := d.response_count, follow_up_count := d.follow_up_count,
           lead_score := d.lead_score, notes := d.notes }

/-- Second phase of `_load_leads` (lines 83-96): walk the tracking file
and overlay each record onto the lead with the same address — records for
addresses not present in the contact-derived map are silently dropped
(`if email in leads`, line 88). -/
def overlayTracking (base : LeadsMap) (tracking : List (String × TrackRec)) : LeadsMap :=
  tracking.foldl
    (fun m p => if hasKey m p.1 then updKey m p.1 (fun l => applyTrackingRec l p.2) else m)
    base

/-- `_load_leads` (lines 65-98). -/
def load_leads (rows : List ContactRow) (tracking : List (String × TrackRec)) : LeadsMap :=
  overlayTracking (leadsFromContacts rows) tracking

/-- The per-lead dict written by `_save_leads` (lines 128-135). -/
def leadToRec (l : Lead) : TrackRec :=
  { status := l.status, last_contact := l.last_contact,
    response_count := l.response_count, follow_up_count := l.follow_up_count,
    lead_score := l.lead_score, notes := l.notes }

/-- `_save_leads` (lines 124-138): serialize every lead's tracked fields,
keyed by address. -/
def save_leads (leads : LeadsMap) : List (String × TrackRec) :=
  leads.map (fun p => (p.1, leadToRec p.2))

/-- `run_nurturing_cycle` (lines 473-492): check for responses (which
commits the sync state itself on success), run the follow-up sequence,
then unconditionally persist the lead map with `_save_leads`. The report
at the end is read-only aggregation and is omitted. -/
def run_nurturing_cycle (cfg : Config) (now : Nat) (today : String)
    (enum : List Nat → List Nat) (send : String → SendResult)
    (st : EngineState) (inbox : List FetchRes) : EngineState :=
  let st1 := check_for_responses cfg now today enum st inbox
  let leads2 := (run_follow_up_sequence cfg now send st1.leads).1
  { st1 with leads := leads2, diskLeads := save_leads leads2 }

/-! Helper lemmas. -/

theorem process_response_rc (cfg : Config) (now : Nat) (today subject body : String)
    (lead : Lead) :
    (process_response cfg now today subject body lead).response_count
      = lead.response_count + 1 := by
  unfold process_response
  cases classify cfg body <;> rfl

theorem strOccurs_empty_right (w : String) (h : w ≠ "") : strOccurs w "" = false := by
  unfold strOccurs occursIn
  cases hw : w.data with
  | nil =>
      exfalso
      apply h
      cases w
      simp only [String.data] at hw
      simp [hw]
  | cons c cs => rfl

theorem pyLower_empty : pyLower "" = "" := by decide

/-- Sample lead record for concrete witnesses and counterexamples. -/
def sampleLead : Lead := { email := "a@x.com", first_name := "A", company := "X" }

/-- Sample lead last contacted at time `lc`. -/
def sampleLeadAt (lc : Nat) : Lead := { sampleLead with last_contact := some lc }

/-! C2. The claim quantifies over case-insensitive containment of a
configured keyword; the code lowercases only the body and matches the
keyword verbatim, so a keyword containing an uppercase letter never
matches. -/

/-- C2 counterexample: with configured interested keyword "DEMO", the body
"please demo" contains that keyword case-insensitively as a substring, yet
classification is neutral rather than interested — only the body is
lowercased, the keyword is matched verbatim. -/
theorem C2_counterexample :
    strOccurs (pyLower "DEMO") (pyLower "please demo") = true ∧
    classify { defaultConfig with interested_words := ["DEMO"] } "please demo"
        ≠ Outcome.interested ∧
    classify { defaultConfig with interested_words := ["DEMO"] } "please demo"
        = Outcome.neutral :=
  ⟨by decide, by decide, by decide⟩

/-- C2 (amended): for every message body whose LOWERCASED text contains a
configured interested keyword verbatim as a substring, classification
yields interested and `_process_response` sets the lead status to
interested, even if the body also contains a not_interested keyword: the
interested list is checked first and takes precedence. -/
theorem C2_interested_precedence (cfg : Config) (now : Nat) (today subject body : String)
    (lead : Lead)
    (h : cfg.interested_words.any (fun w => strOccurs w (pyLower body)) = true) :
    classify cfg body = Outcome.interested ∧
    (process_response cfg now today subject body lead).status = "interested" := by
  have hc : classify cfg body = Outcome.interested := by
    unfold classify
    simp [h]
  refine ⟨hc, ?_⟩
  unfold process_response
  rw [hc]

/-- C2 witness: "Yes but no thanks" matches both the interested list
("yes") and the not_interested list ("no thanks") under the default
configuration, and is classified interested. -/
theorem C2_interested_precedence_witness :
    classify defaultConfig "Yes but no thanks" = Outcome.interested ∧
    (process_response defaultConfig 10 "2025-01-02" "Re: hi" "Yes but no thanks"
        { email := "a@x.com", first_name := "A", company := "X" }).status = "interested" :=
  C2_interested_precedence defaultConfig 10 "2025-01-02" "Re: hi" "Yes but no thanks"
    { email := "a@x.com", first_name := "A", company := "X" } (by decide)

/-! C6. The claim says an empty extracted body skips classification and
leaves the lead untouched; in the code `_process_response` has no such
skip — the empty body just falls through to the neutral branch. -/

/-- C6 counterexample: a message from a known lead whose extracted body is
`""` is not skipped — under the default keywords it is classified neutral,
so lead_score and response_count both change (the claim says both are
unchanged). -/
theorem C6_counterexample :
    (process_response defaultConfig 9 "2025-01-03" "Re: x" ""
        { email := "a@x.com", first_name := "A", company := "X" }).lead_score
      ≠ ({ email := "a@x.com", first_name := "A", company := "X" } : Lead).lead_score ∧
    (process_response defaultConfig 9 "2025-01-03" "Re: x" ""
        { email := "a@x.com", first_name := "A", company := "X" }).response_count
      ≠ ({ email := "a@x.com", first_name := "A", company := "X" } : Lead).response_count :=
  ⟨by decide, by decide⟩

/-- C6 (amended): a message whose body extraction yields `""` is still
processed, not skipped: provided no configured keyword is the empty
string, the empty body is classified neutral, so the message increments
response_count, adds 2 to lead_score, updates last_contact and appends a
note line; only the status is left unchanged. -/
theorem C6_empty_body (cfg : Config) (now : Nat) (today subject : String) (lead : Lead)
    (hi : ∀ w ∈ cfg.interested_words, w ≠ "")
    (hn : ∀ w ∈ cfg.not_interested_words, w ≠ "") :
    classify cfg "" = Outcome.neutral ∧
    (process_response cfg now today subject "" lead).status = lead.status ∧
    (process_response cfg now today subject "" lead).lead_score = lead.lead_score + 2 ∧
    (process_response cfg now today subject "" lead).response_count
      = lead.response_count + 1 ∧
    (process_response cfg now today subject "" lead).last_contact = some now ∧
    (process_response cfg now today subject "" lead).notes
      = lead.notes ++ "\n" ++ today ++ ": Response received - " ++ subject := by
  have hc : classify cfg "" = Outcome.neutral := by
    unfold classify
    rw [pyLower_empty]
    have h1 : cfg.interested_words.any (fun w => strOccurs w "") = false := by
      rw [List.any_eq_false]
      intro w hw
      simp [strOccurs_empty_right w (hi w hw)]
    have h2 : cfg.not_interested_words.any (fun w => strOccurs w "") = false := by
      rw [List.any_eq_false]
      intro w hw
      simp [strOccurs_empty_right w (hn w hw)]
    simp [h1, h2]
  refine ⟨hc, ?_, ?_, ?_, ?_, ?_⟩ <;> (unfold process_response; rw [hc])

/-- C6 witness at the default configuration. -/
theorem C6_empty_body_witness :
    classify defaultConfig "" = Outcome.neutral ∧
    (process_response defaultConfig 9 "2025-01-03" "Re: x" ""
        { email := "a@x.com", first_name := "A", company := "X" }).status = "new" ∧
    (process_response defaultConfig 9 "2025-01-03" "Re: x" ""
        { email := "a@x.com", first_name := "A", company := "X" }).lead_score = 0 + 2 ∧
    (process_response defaultConfig 9 "2025-01-03" "Re: x" ""
        { email := "a@x.com", first_name := "A", company := "X" }).response_count = 0 + 1 ∧
    (process_response defaultConfig 9 "2025-01-03" "Re: x" ""
        { email := "a@x.com", first_name := "A", company := "X" }).last_contact = some 9 ∧
    (process_response defaultConfig 9 "2025-01-03" "Re: x" ""
        { email := "a@x.com", first_name := "A", company := "X" }).notes
      = "" ++ "\n" ++ "2025-01-03" ++ ": Response received - " ++ "Re: x" :=
  C6_empty_body defaultConfig 9 "2025-01-03" "Re: x"
    { email := "a@x.com", first_name := "A", company := "X" } (by decide) (by decide)

/-! C7. -/

/-- C7: every reply classified neutral adds exactly 2 to lead_score and
leaves the status unchanged; consequently, folding N neutral replies
through `_process_response` (in particular under the default
configuration) yields the initial score plus 2·N. -/
theorem C7_neutral_scoring (cfg : Config) :
    (∀ (now : Nat) (today subject body : String) (lead : Lead),
      classify cfg body = Outcome.neutral →
        (process_response cfg now today subject body lead).lead_score
            = lead.lead_score + 2 ∧
        (process_response cfg now today subject body lead).status = lead.status) ∧
    (∀ (now : Nat) (today subject : String) (bodies : List String) (lead : Lead),
      (∀ b ∈ bodies, classify cfg b = Outcome.neutral) →
        (bodies.foldl (fun l b => process_response cfg now today subject b l) lead).lead_score
          = lead.lead_score + 2 * bodies.length) := by
  have base : ∀ (now : Nat) (today subject body : String) (lead : Lead),
      classify cfg body = Outcome.neutral →
        (process_response cfg now today subject body lead).lead_score
            = lead.lead_score + 2 ∧
        (process_response cfg now today subject body lead).status = lead.status := by
    intro now today subject body lead hc
    constructor <;> (unfold process_response; rw [hc])
  refine ⟨base, ?_⟩
  intro now today subject bodies
  induction bodies with
  | nil => intro lead _; simp
  | cons b bs ih =>
      intro lead hall
      have hb : classify cfg b = Outcome.neutral := hall b (List.mem_cons_self b bs)
      have hbs : ∀ x ∈ bs, classify cfg x = Outcome.neutral :=
        fun x hx => hall x (List.mem_cons_of_mem b hx)
      have step := (base now today subject b lead hb).1
      simp only [List.foldl_cons, ih _ hbs, step, List.length_cons]
      push_cast
      ring

/-- C7 witness: two neutral replies under the default configuration. -/
theorem C7_neutral_scoring_witness :
    (process_response defaultConfig 3 "2025-01-04" "s" "hello there"
        { email := "a@x.com", first_name := "A", company := "X" }).lead_score
        = (0 : Int) + 2 ∧
    (["hello there", "ping"].foldl
        (fun l b => process_response defaultConfig 3 "2025-01-04" "s" b l)
        { email := "a@x.com", first_name := "A", company := "X" }).lead_score
      = (0 : Int) + 2 * (2 : Nat) :=
  ⟨((C7_neutral_scoring defaultConfig).1 3 "2025-01-04" "s" "hello there"
      { email := "a@x.com", first_name := "A", company := "X" } (by decide)).1,
   (C7_neutral_scoring defaultConfig).2 3 "2025-01-04" "s" ["hello there", "ping"]
      { email := "a@x.com", first_name := "A", company := "X" } (by decide)⟩

/-! Scheduler helper lemmas. -/

theorem followUpOne_first (cfg : Config) (now : Nat) (send : String → SendResult)
    (email : String) (lead : Lead) (lc : Nat)
    (hauto : cfg.auto_send_follow_ups = true)
    (hstat : lead.status = "new" ∨ lead.status = "contacted")
    (hlc : lead.last_contact = some lc)
    (hd : elapsedDays now lc ≥ cfg.followup_1_days)
    (hcnt : lead.follow_up_count = 0) :
    followUpOne cfg now send email lead
      = ({ lead with follow_up_count := 1, last_contact := some now }, ["followup_1"]) := by
  unfold followUpOne
  rw [hauto, if_pos rfl, if_pos hstat, hlc]
  simp only
  rw [if_pos ⟨hd, hcnt⟩]

theorem followUpOne_second (cfg : Config) (now : Nat) (send : String → SendResult)
    (email : String) (lead : Lead) (lc : Nat)
    (hauto : cfg.auto_send_follow_ups = true)
    (hstat : lead.status = "new" ∨ lead.status = "contacted")
    (hlc : lead.last_contact = some lc)
    (hd : elapsedDays now lc ≥ cfg.followup_2_days)
    (hcnt : lead.follow_up_count = 1) :
    followUpOne cfg now send email lead
      = ((if cfg.max_follow_ups ≤ 2 then
            { lead with follow_up_count := 2, last_contact := some now,
                        status := "not_interested" }
          else { lead with follow_up_count := 2, last_contact := some now }),
         ["followup_2"]) := by
  unfold followUpOne
  rw [hauto, if_pos rfl, if_pos hstat, hlc]
  simp only
  rw [if_neg (fun h => by omega), if_pos ⟨hd, hcnt⟩]

theorem followUpOne_sends_le_one (cfg : Config) (now : Nat) (send : String → SendResult)
    (email : String) (lead : Lead) :
    (followUpOne cfg now send email lead).2.length ≤ 1 := by
  unfold followUpOne
  by_cases h1 : cfg.auto_send_follow_ups = true
  · rw [if_pos h1]
    by_cases h2 : lead.status = "new" ∨ lead.status = "contacted"
    · rw [if_pos h2]
      cases lead.last_contact with
      | none => simp
      | some lc =>
          dsimp only
          by_cases hA : elapsedDays now lc ≥ cfg.followup_1_days ∧ lead.follow_up_count = 0
          · rw [if_pos hA]
            simp
          · rw [if_neg hA]
            by_cases hB : elapsedDays now lc ≥ cfg.followup_2_days ∧ lead.follow_up_count = 1
            · rw [if_pos hB]
              simp
            · rw [if_neg hB]
              simp
    · rw [if_neg h2]
      simp
  · rw [if_neg h1]
    simp

theorem followUpOne_noop_now (cfg : Config) (now : Nat) (send : String → SendResult)
    (email : String) (ld : Lead)
    (hld : ld.last_contact = some now)
    (h1 : 1 ≤ cfg.followup_1_days) (h2 : 1 ≤ cfg.followup_2_days) :
    followUpOne cfg now send email ld = (ld, []) := by
  unfold followUpOne
  by_cases ha : cfg.auto_send_follow_ups = true
  · rw [if_pos ha]
    by_cases hs : ld.status = "new" ∨ ld.status = "contacted"
    · rw [if_pos hs, hld]
      dsimp only
      have hz : elapsedDays now now = 0 := by simp [elapsedDays]
      rw [if_neg (fun h => by omega), if_neg (fun h => by omega)]
    · rw [if_neg hs]
  · rw [if_neg ha]

theorem followUpOne_send_indep (cfg : Config) (now : Nat)
    (send1 send2 : String → SendResult) (email : String) (lead : Lead) :
    followUpOne cfg now send1 email lead = followUpOne cfg now send2 email lead := by
  unfold followUpOne
  rfl

theorem followUpOne_rc (cfg : Config) (now : Nat) (send : String → SendResult)
    (email : String) (lead : Lead) :
    (followUpOne cfg now send email lead).1.response_count = lead.response_count := by
  unfold followUpOne
  by_cases h1 : cfg.auto_send_follow_ups = true
  · rw [if_pos h1]
    by_cases h2 : lead.status = "new" ∨ lead.status = "contacted"
    · rw [if_pos h2]
      cases lead.last_contact with
      | none => rfl
      | some lc =>
          dsimp only
          by_cases hA : elapsedDays now lc ≥ cfg.followup_1_days ∧ lead.follow_up_count = 0
          · rw [if_pos hA]
          · rw [if_neg hA]
            by_cases hB : elapsedDays now lc ≥ cfg.followup_2_days ∧ lead.follow_up_count = 1
            · rw [if_pos hB]
              by_cases hm : cfg.max_follow_ups ≤ 2
              · rw [if_pos hm]
              · rw [if_neg hm]
            · rw [if_neg hB]
    · rw [if_neg h2]
  · rw [if_neg h1]

/-! C3. -/

/-- C3: for a lead eligible for follow-up (status new/contacted, non-null
last_contact, follow-ups enabled), at most one follow-up fires per
scheduler pass; when elapsed days reach the first threshold with
follow_up_count = 0, exactly the first follow-up fires, setting
follow_up_count = 1 and last_contact = now; otherwise when elapsed days
reach the second threshold with follow_up_count = 1, exactly the second
fires, setting follow_up_count = 2 and forcing status not_interested when
max_follow_ups ≤ 2; and any lead whose last_contact is the current
instant (zero elapsed days) receives nothing when the scheduler runs
again, for positive thresholds. -/
theorem C3_follow_up_schedule (cfg : Config) (now : Nat) (send : String → SendResult)
    (email : String) (lead : Lead) (lc : Nat)
    (hauto : cfg.auto_send_follow_ups = true)
    (hstat : lead.status = "new" ∨ lead.status = "contacted")
    (hlc : lead.last_contact = some lc) :
    ((followUpOne cfg now send email lead).2.length ≤ 1) ∧
    (elapsedDays now lc ≥ cfg.followup_1_days → lead.follow_up_count = 0 →
      (followUpOne cfg now send email lead).1.follow_up_count = 1 ∧
      (followUpOne cfg now send email lead).1.last_contact = some now ∧
      (followUpOne cfg now send email lead).1.status = lead.status ∧
      (followUpOne cfg now send email lead).2 = ["followup_1"]) ∧
    (lead.follow_up_count = 1 → elapsedDays now lc ≥ cfg.followup_2_days →
      (followUpOne cfg now send email lead).1.follow_up_count = 2 ∧
      (followUpOne cfg now send email lead).1.last_contact = some now ∧
      (cfg.max_follow_ups ≤ 2 →
        (followUpOne cfg now send email lead).1.status = "not_interested") ∧
      (followUpOne cfg now send email lead).2 = ["followup_2"]) ∧
    (∀ ld : Lead, ld.last_contact = some now → 1 ≤ cfg.followup_1_days →
      1 ≤ cfg.followup_2_days → followUpOne cfg now send email ld = (ld, [])) := by
  refine ⟨followUpOne_sends_le_one cfg now send email lead, ?_, ?_, ?_⟩
  · intro hd hcnt
    rw [followUpOne_first cfg now send email lead lc hauto hstat hlc hd hcnt]
    exact ⟨rfl, rfl, rfl, rfl⟩
  · intro hcnt hd
    rw [followUpOne_second cfg now send email lead lc hauto hstat hlc hd hcnt]
    by_cases hm : cfg.max_follow_ups ≤ 2 <;> simp [hm]
  · intro ld hld h1 h2
    exact followUpOne_noop_now cfg now send email ld hld h1 h2

/-- C3 witness: default thresholds (3, 7), a new lead contacted 3 days
ago (259200 seconds) with no follow-ups yet. -/
theorem C3_follow_up_schedule_witness :
    (((followUpOne defaultConfig 259200 (fun _ => SendResult.ok) "a@x.com"
        (sampleLeadAt 0)).2.length ≤ 1) ∧
    (elapsedDays 259200 0 ≥ defaultConfig.followup_1_days →
      (sampleLeadAt 0).follow_up_count = 0 →
      (followUpOne defaultConfig 259200 (fun _ => SendResult.ok) "a@x.com"
          (sampleLeadAt 0)).1.follow_up_count = 1 ∧
      (followUpOne defaultConfig 259200 (fun _ => SendResult.ok) "a@x.com"
          (sampleLeadAt 0)).1.last_contact = some 259200 ∧
      (followUpOne defaultConfig 259200 (fun _ => SendResult.ok) "a@x.com"
          (sampleLeadAt 0)).1.status = (sampleLeadAt 0).status ∧
      (followUpOne defaultConfig 259200 (fun _ => SendResult.ok) "a@x.com"
          (sampleLeadAt 0)).2 = ["followup_1"]) ∧
    ((sampleLeadAt 0).follow_up_count = 1 →
      elapsedDays 259200 0 ≥ defaultConfig.followup_2_days →
      (followUpOne defaultConfig 259200 (fun _ => SendResult.ok) "a@x.com"
          (sampleLeadAt 0)).1.follow_up_count = 2 ∧
      (followUpOne defaultConfig 259200 (fun _ => SendResult.ok) "a@x.com"
          (sampleLeadAt 0)).1.last_contact = some 259200 ∧
      (defaultConfig.max_follow_ups ≤ 2 →
        (followUpOne defaultConfig 259200 (fun _ => SendResult.ok) "a@x.com"
            (sampleLeadAt 0)).1.status = "not_interested") ∧
      (followUpOne defaultConfig 259200 (fun _ => SendResult.ok) "a@x.com"
          (sampleLeadAt 0)).2 = ["followup_2"]) ∧
    (∀ ld : Lead, ld.last_contact = some 259200 → 1 ≤ defaultConfig.followup_1_days →
      1 ≤ defaultConfig.followup_2_days →
      followUpOne defaultConfig 259200 (fun _ => SendResult.ok) "a@x.com" ld = (ld, []))) :=
  C3_follow_up_schedule defaultConfig 259200 (fun _ => SendResult.ok) "a@x.com"
    (sampleLeadAt 0) 0 (by decide) (Or.inl rfl) rfl

/-! C4. `_send_follow_up` catches every exception internally, so a failing
provider send never prevents `run_follow_up_sequence` from marking the
lead as followed up: the claim's "follow_up_count, last_contact and
status are unchanged" is false. -/

/-- C4 counterexample: an eligible lead (4 days elapsed, count 0) whose
provider send FAILS still comes out of the scheduler pass with
follow_up_count = 1 (the claim says it stays 0) and an updated
last_contact. -/
theorem C4_counterexample :
    ((findKey (run_follow_up_sequence defaultConfig 345600 (fun _ => SendResult.error)
        [("a@x.com", sampleLeadAt 0)]).1 "a@x.com").map Lead.follow_up_count
      = some 1) ∧
    ((sampleLeadAt 0).follow_up_count = 0) ∧
    ((findKey (run_follow_up_sequence defaultConfig 345600 (fun _ => SendResult.error)
        [("a@x.com", sampleLeadAt 0)]).1 "a@x.com").map Lead.last_contact
      = some (some 345600)) :=
  ⟨by decide, by decide, by decide⟩

/-- C4 (amended): a failing provider send does not abort the scheduler
pass — `_send_follow_up` swallows the exception, so the pass's result is
identical under any send outcomes — but the lead IS marked as followed
up anyway: an eligible first-follow-up lead comes out with
follow_up_count = 1 and last_contact = now even when its send fails, so
that follow-up is NOT eligible to retry next cycle. -/
theorem C4_send_failure (cfg : Config) (now : Nat) (email : String) (lead : Lead)
    (lc : Nat) (leads : LeadsMap)
    (hauto : cfg.auto_send_follow_ups = true)
    (hstat : lead.status = "new" ∨ lead.status = "contacted")
    (hlc : lead.last_contact = some lc)
    (hd : elapsedDays now lc ≥ cfg.followup_1_days)
    (hcnt : lead.follow_up_count = 0) :
    (∀ send1 send2 : String → SendResult,
      run_follow_up_sequence cfg now send1 leads
        = run_follow_up_sequence cfg now send2 leads) ∧
    (followUpOne cfg now (fun _ => SendResult.error) email lead).1.follow_up_count = 1 ∧
    (followUpOne cfg now (fun _ => SendResult.error) email lead).1.last_contact
      = some now := by
  refine ⟨?_, ?_, ?_⟩
  · intro send1 send2
    unfold run_follow_up_sequence
    rfl
  · rw [followUpOne_first cfg now (fun _ => SendResult.error) email lead lc
      hauto hstat hlc hd hcnt]
  · rw [followUpOne_first cfg now (fun _ => SendResult.error) email lead lc
      hauto hstat hlc hd hcnt]

/-- C4 (amended) witness. -/
theorem C4_send_failure_witness :
    (∀ send1 send2 : String → SendResult,
      run_follow_up_sequence defaultConfig 345600 send1 [("a@x.com", sampleLeadAt 0)]
        = run_follow_up_sequence defaultConfig 345600 send2 [("a@x.com", sampleLeadAt 0)]) ∧
    (followUpOne defaultConfig 345600 (fun _ => SendResult.error) "a@x.com"
        (sampleLeadAt 0)).1.follow_up_count = 1 ∧
    (followUpOne defaultConfig 345600 (fun _ => SendResult.error) "a@x.com"
        (sampleLeadAt 0)).1.last_contact = some 345600 :=
  C4_send_failure defaultConfig 345600 "a@x.com" (sampleLeadAt 0) 0
    [("a@x.com", sampleLeadAt 0)] (by decide) (Or.inl rfl) rfl (by decide) rfl

/-! Poll-loop step lemmas. -/

theorem pollLoop_nil (cfg : Config) (now : Nat) (today : String)
    (ids : List Nat) (leads : LeadsMap) :
    pollLoop cfg now today ids leads [] = ⟨ids, leads, true⟩ := rfl

theorem pollLoop_cons_failure (cfg : Config) (now : Nat) (today : String)
    (ids : List Nat) (leads : LeadsMap) (rest : List FetchRes) :
    pollLoop cfg now today ids leads (FetchRes.failure :: rest) = ⟨ids, leads, false⟩ := rfl

theorem pollLoop_cons_skip (cfg : Config) (now : Nat) (today : String)
    (ids : List Nat) (leads : LeadsMap) (m : Message) (rest : List FetchRes)
    (hmem : m.id ∈ ids) :
    pollLoop cfg now today ids leads (FetchRes.msg m :: rest)
      = pollLoop cfg now today ids leads rest := by
  conv_lhs => rw [pollLoop.eq_def]
  dsimp only
  rw [if_pos hmem]

theorem pollLoop_cons_process (cfg : Config) (now : Nat) (today : String)
    (ids : List Nat) (leads : LeadsMap) (m : Message) (rest : List FetchRes) (e : String)
    (hmem : m.id ∉ ids) (hs : m.sender = some e) (hk : hasKey leads e = true) :
    pollLoop cfg now today ids leads (FetchRes.msg m :: rest)
      = pollLoop cfg now today (ids ++ [m.id])
          (updKey leads e (fun l => process_response cfg now today m.subject m.body l))
          rest := by
  conv_lhs => rw [pollLoop.eq_def]
  dsimp only
  rw [if_neg hmem, hs]
  dsimp only
  rw [if_pos hk]

/-! Association-list lemmas. -/

theorem findKey_updKey_self (m : List (String × α)) (k : String) (f : α → α) :
    findKey (updKey m k f) k = (findKey m k).map f := by
  induction m with
  | nil => rfl
  | cons p rest ih =>
      simp only [updKey, List.map_cons, findKey] at *
      by_cases h : p.1 = k
      · simp [h]
      · simp [h, ih]

theorem findKey_updKey_ne (m : List (String × α)) (k e : String) (f : α → α)
    (h : k ≠ e) :
    findKey (updKey m k f) e = findKey m e := by
  induction m with
  | nil => rfl
  | cons p rest ih =>
      show findKey ((if p.1 = k then (p.1, f p.2) else p) :: updKey rest k f) e
        = findKey (p :: rest) e
      by_cases hp : p.1 = k
      · rw [if_pos hp]
        show (if p.1 = e then some (f p.2) else findKey (updKey rest k f) e)
          = if p.1 = e then some p.2 else findKey rest e
        have hne : p.1 ≠ e := by rw [hp]; exact h
        rw [if_neg hne, if_neg hne, ih]
      · rw [if_neg hp]
        show (if p.1 = e then some p.2 else findKey (updKey rest k f) e)
          = if p.1 = e then some p.2 else findKey rest e
        by_cases he : p.1 = e
        · rw [if_pos he, if_pos he]
        · rw [if_neg he, if_neg he, ih]

theorem hasKey_updKey (m : List (String × α)) (k e : String) (f : α → α) :
    hasKey (updKey m k f) e = hasKey m e := by
  unfold hasKey
  by_cases h : k = e
  · subst h
    rw [findKey_updKey_self]
    cases findKey m k <;> rfl
  · rw [findKey_updKey_ne m k e f h]

theorem findKey_mem (m : List (String × α)) (k : String) (v : α)
    (h : findKey m k = some v) : (k, v) ∈ m := by
  induction m with
  | nil => simp [findKey] at h
  | cons p rest ih =>
      unfold findKey at h
      by_cases hp : p.1 = k
      · rw [if_pos hp] at h
        have hv : p.2 = v := by injection h
        have hpkv : p = (k, v) := by
          cases p
          simp only at hp hv
          rw [hp, hv]
        rw [← hpkv]
        exact List.mem_cons_self p rest
      · rw [if_neg hp] at h
        exact List.mem_cons_of_mem p (ih h)

/-! C1. -/

/-- C1: a message identifier already in the processed set at the start of
a poll is skipped outright (the poll changes nothing for it), and an
identifier that reappears later within the same poll after being
processed is skipped on its second appearance: feeding the same message
twice through the page loop leaves the matching lead with
response_count + 1, not + 2. -/
theorem C1_exactly_once (cfg : Config) (now : Nat) (today : String)
    (leads : LeadsMap) (ids : List Nat) (m : Message) (e : String) (l : Lead)
    (hs : m.sender = some e) (hl : findKey leads e = some l) :
    (m.id ∈ ids →
      pollLoop cfg now today ids leads [FetchRes.msg m] = ⟨ids, leads, true⟩) ∧
    (m.id ∉ ids →
      findKey (pollLoop cfg now today ids leads
          [FetchRes.msg m, FetchRes.msg m]).leads e
        = some (process_response cfg now today m.subject m.body l) ∧
      (process_response cfg now today m.subject m.body l).response_count
        = l.response_count + 1) := by
  have hk : hasKey leads e = true := by
    unfold hasKey
    rw [hl]
    rfl
  constructor
  · intro hmem
    rw [pollLoop_cons_skip cfg now today ids leads m [] hmem, pollLoop_nil]
  · intro hmem
    refine ⟨?_, process_response_rc cfg now today m.subject m.body l⟩
    rw [pollLoop_cons_process cfg now today ids leads m [FetchRes.msg m] e hmem hs hk,
      pollLoop_cons_skip _ _ _ _ _ _ _ (by simp), pollLoop_nil]
    dsimp only
    rw [findKey_updKey_self, hl]
    rfl

/-- A sample inbound message for concrete witnesses. -/
def sampleMsg : Message :=
  { id := 7, sender := some "a@x.com", subject := "Re: hi", body := "hello" }

/-- C1 witness: one known lead, the same message delivered twice in one
poll window (and the start-of-poll skip, vacuous at `ids = []`). -/
theorem C1_exactly_once_witness :
    ((sampleMsg.id ∈ ([] : List Nat) →
      pollLoop defaultConfig 11 "2025-01-06" [] [("a@x.com", sampleLead)]
          [FetchRes.msg sampleMsg]
        = ⟨[], [("a@x.com", sampleLead)], true⟩) ∧
    (sampleMsg.id ∉ ([] : List Nat) →
      findKey (pollLoop defaultConfig 11 "2025-01-06" [] [("a@x.com", sampleLead)]
          [FetchRes.msg sampleMsg, FetchRes.msg sampleMsg]).leads "a@x.com"
        = some (process_response defaultConfig 11 "2025-01-06"
            sampleMsg.subject sampleMsg.body sampleLead) ∧
      (process_response defaultConfig 11 "2025-01-06"
          sampleMsg.subject sampleMsg.body sampleLead).response_count
        = sampleLead.response_count + 1)) :=
  C1_exactly_once defaultConfig 11 "2025-01-06" [("a@x.com", sampleLead)] []
    sampleMsg "a@x.com" sampleLead rfl rfl

/-! C5. The cap of 500 holds after every commit, but `list(processed_ids)`
enumerates a Python set, whose iteration order need not be insertion
order, so the claim's "most recent N by insertion order / FIFO eviction
of the oldest-inserted" is not guaranteed. -/

/-- C5 counterexample: let the insertion order be `0, 1, …, 500` (0 the
oldest). The set {0,…,500} may legitimately enumerate as the reversed
list; truncation to the last 500 entries of that enumeration then KEEPS
the oldest-inserted identifier 0 and EVICTS the newest-inserted
identifier 500 — the opposite of the claimed FIFO eviction. -/
theorem C5_counterexample :
    ((List.range 501).reverse).Perm (List.range 501) ∧
    0 ∈ truncate500 (List.range 501).reverse ∧
    500 ∉ truncate500 (List.range 501).reverse := by
  have h1 : (List.range 501).reverse = 500 :: (List.range 500).reverse := by
    rw [List.range_succ, List.reverse_append, List.reverse_singleton,
      List.singleton_append]
  have hdrop : truncate500 (List.range 501).reverse = (List.range 500).reverse := by
    unfold truncate500
    rw [h1]
    have hlen : (500 :: (List.range 500).reverse).length = 501 := by simp
    rw [hlen]
    rw [if_pos (by omega)]
    rfl
  refine ⟨List.reverse_perm _, ?_, ?_⟩
  · rw [hdrop]
    simp
  · rw [hdrop]
    simp

/-- C5 (amended): after the commit at the end of every successful poll,
`processed_message_ids` holds at most 500 identifiers, the in-memory and
on-disk sync state agree, and the kept identifiers are a suffix of the
enumeration `list(processed_ids)` of the set — the enumeration order, not
the insertion order, decides which identifiers survive truncation. -/
theorem C5_commit_bound (cfg : Config) (now : Nat) (today : String)
    (enum : List Nat → List Nat) (st : EngineState) (inbox : List FetchRes)
    (hok : (pollLoop cfg now today st.sync.processed_message_ids st.leads inbox).ok
      = true) :
    (check_for_responses cfg now today enum st inbox).sync.processed_message_ids.length
        ≤ 500 ∧
    (check_for_responses cfg now today enum st inbox).diskSync
        = (check_for_responses cfg now today enum st inbox).sync ∧
    ∃ dropped,
      dropped ++ (check_for_responses cfg now today enum st inbox).sync.processed_message_ids
        = enum (pollLoop cfg now today st.sync.processed_message_ids st.leads inbox).processed := by
  have key : ∀ ids : List Nat,
      (truncate500 ids).length ≤ 500 ∧ ∃ d, d ++ truncate500 ids = ids := by
    intro ids
    unfold truncate500
    by_cases h : ids.length > 500
    · rw [if_pos h]
      refine ⟨?_, ids.take (ids.length - 500), List.take_append_drop _ _⟩
      rw [List.length_drop]
      omega
    · rw [if_neg h]
      exact ⟨by omega, [], rfl⟩
  unfold check_for_responses
  rw [if_pos hok]
  dsimp only [commitSync]
  obtain ⟨hlen, d, hd⟩ :=
    key (enum (pollLoop cfg now today st.sync.processed_message_ids st.leads inbox).processed)
  exact ⟨hlen, rfl, d, hd⟩

/-- The engine state used by concrete witnesses: one known lead, no sync
history, empty disk snapshots. -/
def sampleEngine : EngineState :=
  { leads := [("a@x.com", sampleLead)], sync := ⟨none, []⟩,
    diskLeads := [], diskSync := ⟨none, []⟩ }

/-- C5 witness: a successful empty poll commits a bounded id list. -/
theorem C5_commit_bound_witness :
    ((check_for_responses defaultConfig 7 "2025-01-05" (fun l => l)
        sampleEngine []).sync.processed_message_ids.length ≤ 500 ∧
    (check_for_responses defaultConfig 7 "2025-01-05" (fun l => l)
        sampleEngine []).diskSync
      = (check_for_responses defaultConfig 7 "2025-01-05" (fun l => l)
        sampleEngine []).sync ∧
    ∃ dropped,
      dropped ++ (check_for_responses defaultConfig 7 "2025-01-05" (fun l => l)
          sampleEngine []).sync.processed_message_ids
        = (fun l : List Nat => l)
            (pollLoop defaultConfig 7 "2025-01-05"
              sampleEngine.sync.processed_message_ids sampleEngine.leads []).processed) :=
  C5_commit_bound defaultConfig 7 "2025-01-05" (fun l => l) sampleEngine [] rfl

/-! Persistence lemmas: the tracking overlay of `_load_leads` and the
serialization of `_save_leads`. -/

theorem overlay_findKey_notmem (t : List (String × TrackRec)) (e : String) :
    ∀ base : LeadsMap, e ∉ t.map Prod.fst →
      findKey (overlayTracking base t) e = findKey base e := by
  induction t with
  | nil => intro base _; rfl
  | cons p rest ih =>
      intro base h
      have hne : p.1 ≠ e := by
        intro hc
        exact h (by rw [List.map_cons, hc]; exact List.mem_cons_self e _)
      have hrest : e ∉ rest.map Prod.fst := by
        intro hx
        exact h (by rw [List.map_cons]; exact List.mem_cons_of_mem _ hx)
      show findKey (overlayTracking
        (if hasKey base p.1 then updKey base p.1 (fun l => applyTrackingRec l p.2) else base)
        rest) e = findKey base e
      rw [ih _ hrest]
      by_cases hk : hasKey base p.1 = true
      · rw [if_pos hk, findKey_updKey_ne _ _ _ _ hne]
      · rw [if_neg hk]

theorem overlay_findKey_mem (t : List (String × TrackRec)) (e : String) (r : TrackRec) :
    ∀ base : LeadsMap, (t.map Prod.fst).Nodup → (e, r) ∈ t → hasKey base e = true →
      findKey (overlayTracking base t) e
        = (findKey base e).map (fun l => applyTrackingRec l r) := by
  induction t with
  | nil => intro base _ hmem _; cases hmem
  | cons p rest ih =>
      intro base hnodup hmem hk
      rw [List.map_cons, List.nodup_cons] at hnodup
      obtain ⟨hp_nin, hrest_nodup⟩ := hnodup
      show findKey (overlayTracking
        (if hasKey base p.1 then updKey base p.1 (fun l => applyTrackingRec l p.2) else base)
        rest) e = (findKey base e).map (fun l => applyTrackingRec l r)
      rcases List.mem_cons.mp hmem with heq | hmem_rest
      · have hp1 : p.1 = e := by rw [← heq]
        have hp2 : p.2 = r := by rw [← heq]
        have hnin : e ∉ rest.map Prod.fst := by rw [← hp1]; exact hp_nin
        rw [overlay_findKey_notmem rest e _ hnin, if_pos (by rw [hp1]; exact hk),
          hp1, hp2, findKey_updKey_self]
      · have hne : p.1 ≠ e := by
          intro hc
          apply hp_nin
          rw [hc]
          exact List.mem_map_of_mem Prod.fst hmem_rest
        by_cases hkp : hasKey base p.1 = true
        · rw [if_pos hkp,
            ih _ hrest_nodup hmem_rest (by rw [hasKey_updKey]; exact hk),
            findKey_updKey_ne _ _ _ _ hne]
        · rw [if_neg hkp, ih _ hrest_nodup hmem_rest hk]

theorem findKey_save (leads : LeadsMap) (e : String) :
    findKey (save_leads leads) e = (findKey leads e).map leadToRec := by
  induction leads with
  | nil => rfl
  | cons p rest ih =>
      show (if p.1 = e then some (leadToRec p.2) else findKey (save_leads rest) e)
        = (if p.1 = e then some p.2 else findKey rest e).map leadToRec
      by_cases h : p.1 = e
      · rw [if_pos h, if_pos h]
        rfl
      · rw [if_neg h, if_neg h, ih]

theorem keys_save (leads : LeadsMap) :
    (save_leads leads).map Prod.fst = leads.map Prod.fst := by
  unfold save_leads
  rw [List.map_map]
  rfl

theorem leadToRec_applyTrackingRec (l : Lead) (r : TrackRec) :
    leadToRec (applyTrackingRec l r) = r := by
  cases r
  rfl

/-! C8. -/

/-- C8: round-trip persistence — saving a lead map with `_save_leads` and
reloading it with `_load_leads` against a contact list that contains every
tracked address reproduces every lead's status, last_contact (including
`none`), response_count, follow_up_count, lead_score and notes. -/
theorem C8_roundtrip (rows : List ContactRow) (leads : LeadsMap) (e : String) (l : Lead)
    (hnodup : (leads.map Prod.fst).Nodup)
    (hkeys : ∀ p ∈ leads, hasKey (leadsFromContacts rows) p.1 = true)
    (hfind : findKey leads e = some l) :
    ∃ l', findKey (load_leads rows (save_leads leads)) e = some l' ∧
      l'.status = l.status ∧ l'.last_contact = l.last_contact ∧
      l'.response_count = l.response_count ∧ l'.follow_up_count = l.follow_up_count ∧
      l'.lead_score = l.lead_score ∧ l'.notes = l.notes := by
  have hmem : (e, l) ∈ leads := findKey_mem leads e l hfind
  have hsave_mem : (e, leadToRec l) ∈ save_leads leads :=
    List.mem_map_of_mem (fun p => (p.1, leadToRec p.2)) hmem
  have hsave_keys : ((save_leads leads).map Prod.fst).Nodup := by
    rw [keys_save]
    exact hnodup
  have hbk : hasKey (leadsFromContacts rows) e = true := hkeys (e, l) hmem
  have hov := overlay_findKey_mem (save_leads leads) e (leadToRec l)
    (leadsFromContacts rows) hsave_keys hsave_mem hbk
  obtain ⟨b, hb⟩ := Option.isSome_iff_exists.mp hbk
  refine ⟨applyTrackingRec b (leadToRec l), ?_, rfl, rfl, rfl, rfl, rfl, rfl⟩
  unfold load_leads
  rw [hov, hb]
  rfl

/-- C8 witness: one contact row, one fully populated tracked lead. -/
theorem C8_roundtrip_witness :
    ∃ l', findKey (load_leads [{ toAddr := "a@x.com", first_name := "A", company := "X" }]
        (save_leads [("a@x.com",
          { email := "a@x.com", first_name := "A", company := "X",
            status := "contacted", last_contact := some 42, response_count := 3,
            follow_up_count := 1, lead_score := 9, notes := "n" })])) "a@x.com"
        = some l' ∧
      l'.status = "contacted" ∧ l'.last_contact = some 42 ∧
      l'.response_count = 3 ∧ l'.follow_up_count = 1 ∧
      l'.lead_score = 9 ∧ l'.notes = "n" :=
  C8_roundtrip [{ toAddr := "a@x.com", first_name := "A", company := "X" }]
    [("a@x.com",
      { email := "a@x.com", first_name := "A", company := "X",
        status := "contacted", last_contact := some 42, response_count := 3,
        follow_up_count := 1, lead_score := 9, notes := "n" })]
    "a@x.com"
    { email := "a@x.com", first_name := "A", company := "X",
      status := "contacted", last_contact := some 42, response_count := 3,
      follow_up_count := 1, lead_score := 9, notes := "n" }
    (by decide) (by decide) rfl

/-! C9. `_load_leads` keeps a tracking record only when its address
appears in `contacts.csv` (`if email in leads`, line 88), and
`_save_leads` writes only `self.leads`, so a load-then-save cycle DELETES
every tracking record whose address is absent from the contact list — the
claim's "regardless of the contents of the externally supplied contact
list" is false. -/

/-- A sample tracking record for concrete counterexamples/witnesses. -/
def sampleTrackRec : TrackRec :=
  { status := "interested", last_contact := some 5, response_count := 2,
    follow_up_count := 1, lead_score := 17, notes := "n" }

/-- C9 counterexample: a tracking record exists for "a@x.com", the contact
list is empty; after one load-then-save cycle the record is gone. -/
theorem C9_counterexample :
    findKey [("a@x.com", sampleTrackRec)] "a@x.com" = some sampleTrackRec ∧
    findKey (save_leads (load_leads [] [("a@x.com", sampleTrackRec)])) "a@x.com"
      = none :=
  ⟨rfl, rfl⟩

/-- C9 (amended): a tracking record whose address appears (normalized) in
the contact list survives a load-then-save cycle unchanged; records for
addresses NOT in the contact list are dropped by the cycle (deletion via
the contact list is exactly how removal happens). -/
theorem C9_load_save_keeps (rows : List ContactRow)
    (tracking : List (String × TrackRec)) (e : String) (r : TrackRec)
    (hnodup : (tracking.map Prod.fst).Nodup)
    (hmem : (e, r) ∈ tracking)
    (hkey : hasKey (leadsFromContacts rows) e = true) :
    findKey (save_leads (load_leads rows tracking)) e = some r := by
  rw [findKey_save]
  unfold load_leads
  rw [overlay_findKey_mem tracking e r (leadsFromContacts rows) hnodup hmem hkey]
  obtain ⟨b, hb⟩ := Option.isSome_iff_exists.mp hkey
  rw [hb]
  show some (leadToRec (applyTrackingRec b r)) = some r
  rw [leadToRec_applyTrackingRec]

/-- C9 witness: the record for an address present in the contact list
survives load-then-save verbatim. -/
theorem C9_load_save_keeps_witness :
    findKey (save_leads (load_leads
        [{ toAddr := "a@x.com", first_name := "A", company := "X" }]
        [("a@x.com", sampleTrackRec)])) "a@x.com" = some sampleTrackRec :=
  C9_load_save_keeps [{ toAddr := "a@x.com", first_name := "A", company := "X" }]
    [("a@x.com", sampleTrackRec)] "a@x.com" sampleTrackRec
    (by decide) (by decide) (by decide)

/-! Orchestrator lemmas. -/

theorem findKey_fus (cfg : Config) (now : Nat) (send : String → SendResult)
    (leads : LeadsMap) (e : String) :
    findKey (run_follow_up_sequence cfg now send leads).1 e
      = (findKey leads e).map (fun l => (followUpOne cfg now send e l).1) := by
  show findKey (leads.map (fun q => (q.1, (followUpOne cfg now send q.1 q.2).1))) e = _
  induction leads with
  | nil => rfl
  | cons p rest ih =>
      have hl : findKey ((p :: rest).map
            (fun q => (q.1, (followUpOne cfg now send q.1 q.2).1))) e
          = if p.1 = e then some (followUpOne cfg now send p.1 p.2).1
            else findKey (rest.map
              (fun q => (q.1, (followUpOne cfg now send q.1 q.2).1))) e := rfl
      have hr : findKey (p :: rest) e
          = if p.1 = e then some p.2 else findKey rest e := rfl
      rw [hl, hr]
      by_cases h : p.1 = e
      · rw [if_pos h, if_pos h, h]
        rfl
      · rw [if_neg h, if_neg h, ih]

theorem check_leads_eq (cfg : Config) (now : Nat) (today : String)
    (enum : List Nat → List Nat) (st : EngineState) (inbox : List FetchRes) :
    (check_for_responses cfg now today enum st inbox).leads
      = (pollLoop cfg now today st.sync.processed_message_ids st.leads inbox).leads := by
  unfold check_for_responses
  dsimp only
  by_cases h : (pollLoop cfg now today st.sync.processed_message_ids st.leads inbox).ok
      = true
  · rw [if_pos h]
  · rw [if_neg h]

theorem cycle_leads_eq (cfg : Config) (now : Nat) (today : String)
    (enum : List Nat → List Nat) (send : String → SendResult)
    (st : EngineState) (inbox : List FetchRes) :
    (run_nurturing_cycle cfg now today enum send st inbox).leads
      = (run_follow_up_sequence cfg now send
          (pollLoop cfg now today st.sync.processed_message_ids st.leads inbox).leads).1 := by
  have h := check_leads_eq cfg now today enum st inbox
  show (run_follow_up_sequence cfg now send
      (check_for_responses cfg now today enum st inbox).leads).1 = _
  rw [h]

theorem cycle_diskLeads_eq (cfg : Config) (now : Nat) (today : String)
    (enum : List Nat → List Nat) (send : String → SendResult)
    (st : EngineState) (inbox : List FetchRes) :
    (run_nurturing_cycle cfg now today enum send st inbox).diskLeads
      = save_leads (run_nurturing_cycle cfg now today enum send st inbox).leads := rfl

theorem cycle_sync_eq (cfg : Config) (now : Nat) (today : String)
    (enum : List Nat → List Nat) (send : String → SendResult)
    (st : EngineState) (inbox : List FetchRes) :
    (run_nurturing_cycle cfg now today enum send st inbox).sync
      = (check_for_responses cfg now today enum st inbox).sync := rfl

theorem cycle_diskSync_eq (cfg : Config) (now : Nat) (today : String)
    (enum : List Nat → List Nat) (send : String → SendResult)
    (st : EngineState) (inbox : List FetchRes) :
    (run_nurturing_cycle cfg now today enum send st inbox).diskSync
      = (check_for_responses cfg now today enum st inbox).diskSync := rfl

theorem check_failure_state (cfg : Config) (now : Nat) (today : String)
    (enum : List Nat → List Nat) (st : EngineState) (inbox : List FetchRes)
    (hfail : (pollLoop cfg now today st.sync.processed_message_ids st.leads inbox).ok
      = false) :
    check_for_responses cfg now today enum st inbox
      = { st with leads :=
          (pollLoop cfg now today st.sync.processed_message_ids st.leads inbox).leads } := by
  unfold check_for_responses
  dsimp only
  rw [if_neg (by rw [hfail]; exact Bool.false_ne_true)]

/-! C10. -/

/-- C10: when a provider call raises partway through the poll loop, the
sync-state commit is skipped entirely — both the in-memory and on-disk
sync state keep their pre-cycle values — yet the lead mutations applied
to messages processed before the failure remain in memory and are
persisted by the cycle's unconditional `_save_leads`; because the
processed-id set on disk was not advanced, the very same message is
reclassified by the next cycle and the lead's response_count is
double-counted. -/
theorem C10_crash_retains_mutations (cfg : Config) (n1 n2 : Nat) (t1 t2 : String)
    (enum : List Nat → List Nat) (send : String → SendResult)
    (st : EngineState) (m : Message) (e : String) (l : Lead)
    (hs : m.sender = some e) (hl : findKey st.leads e = some l)
    (hid : m.id ∉ st.sync.processed_message_ids) :
    (run_nurturing_cycle cfg n1 t1 enum send st
        [FetchRes.msg m, FetchRes.failure]).sync = st.sync ∧
    (run_nurturing_cycle cfg n1 t1 enum send st
        [FetchRes.msg m, FetchRes.failure]).diskSync = st.diskSync ∧
    (run_nurturing_cycle cfg n1 t1 enum send st
        [FetchRes.msg m, FetchRes.failure]).diskLeads
      = save_leads (run_nurturing_cycle cfg n1 t1 enum send st
          [FetchRes.msg m, FetchRes.failure]).leads ∧
    (findKey (run_nurturing_cycle cfg n1 t1 enum send st
        [FetchRes.msg m, FetchRes.failure]).leads e).map Lead.response_count
      = some (l.response_count + 1) ∧
    (findKey (run_nurturing_cycle cfg n2 t2 enum send
        (run_nurturing_cycle cfg n1 t1 enum send st [FetchRes.msg m, FetchRes.failure])
        [FetchRes.msg m]).leads e).map Lead.response_count
      = some (l.response_count + 2) := by
  have hk : hasKey st.leads e = true := by
    unfold hasKey
    rw [hl]
    rfl
  have hpoll1 : pollLoop cfg n1 t1 st.sync.processed_message_ids st.leads
      [FetchRes.msg m, FetchRes.failure]
      = ⟨st.sync.processed_message_ids ++ [m.id],
         updKey st.leads e (fun x => process_response cfg n1 t1 m.subject m.body x),
         false⟩ := by
    rw [pollLoop_cons_process cfg n1 t1 _ _ m _ e hid hs hk, pollLoop_cons_failure]
  have hcheck1 : check_for_responses cfg n1 t1 enum st [FetchRes.msg m, FetchRes.failure]
      = { st with leads := updKey st.leads e (fun x => process_response cfg n1 t1 m.subject m.body x) } := by
    rw [check_failure_state cfg n1 t1 enum st _ (by rw [hpoll1]), hpoll1]
  have hleads1 : (run_nurturing_cycle cfg n1 t1 enum send st
      [FetchRes.msg m, FetchRes.failure]).leads
      = (run_follow_up_sequence cfg n1 send
          (updKey st.leads e (fun x => process_response cfg n1 t1 m.subject m.body x))).1 := by
    rw [cycle_leads_eq, hpoll1]
  have hfind1 : findKey (run_follow_up_sequence cfg n1 send
      (updKey st.leads e (fun x => process_response cfg n1 t1 m.subject m.body x))).1 e
      = some (followUpOne cfg n1 send e
          (process_response cfg n1 t1 m.subject m.body l)).1 := by
    rw [findKey_fus, findKey_updKey_self, hl]
    rfl
  have hsync1 : (run_nurturing_cycle cfg n1 t1 enum send st
      [FetchRes.msg m, FetchRes.failure]).sync = st.sync := by
    rw [cycle_sync_eq, hcheck1]
  have hdisksync1 : (run_nurturing_cycle cfg n1 t1 enum send st
      [FetchRes.msg m, FetchRes.failure]).diskSync = st.diskSync := by
    rw [cycle_diskSync_eq, hcheck1]
  refine ⟨hsync1, hdisksync1, cycle_diskLeads_eq cfg n1 t1 enum send st _, ?_, ?_⟩
  · rw [hleads1, hfind1]
    show some ((followUpOne cfg n1 send e
        (process_response cfg n1 t1 m.subject m.body l)).1.response_count)
      = some (l.response_count + 1)
    rw [followUpOne_rc, process_response_rc]
  · have hk2 : hasKey (run_follow_up_sequence cfg n1 send
        (updKey st.leads e (fun x => process_response cfg n1 t1 m.subject m.body x))).1 e
        = true := by
      unfold hasKey
      rw [hfind1]
      rfl
    rw [cycle_leads_eq, hsync1, hleads1,
      pollLoop_cons_process cfg n2 t2 _ _ m _ e hid hs hk2, pollLoop_nil]
    dsimp only
    rw [findKey_fus, findKey_updKey_self, hfind1]
    show some ((followUpOne cfg n2 send e (process_response cfg n2 t2 m.subject m.body
        (followUpOne cfg n1 send e
          (process_response cfg n1 t1 m.subject m.body l)).1)).1.response_count)
      = some (l.response_count + 2)
    rw [followUpOne_rc, process_response_rc, followUpOne_rc, process_response_rc]

/-- C10 witness: one known lead, the poll of cycle 1 fails after
processing the message; cycle 2 sees the same message again. -/
theorem C10_crash_retains_mutations_witness :
    ((run_nurturing_cycle defaultConfig 20 "2025-01-07" (fun l => l)
        (fun _ => SendResult.ok) sampleEngine
        [FetchRes.msg sampleMsg, FetchRes.failure]).sync = sampleEngine.sync ∧
    (run_nurturing_cycle defaultConfig 20 "2025-01-07" (fun l => l)
        (fun _ => SendResult.ok) sampleEngine
        [FetchRes.msg sampleMsg, FetchRes.failure]).diskSync = sampleEngine.diskSync ∧
    (run_nurturing_cycle defaultConfig 20 "2025-01-07" (fun l => l)
        (fun _ => SendResult.ok) sampleEngine
        [FetchRes.msg sampleMsg, FetchRes.failure]).diskLeads
      = save_leads (run_nurturing_cycle defaultConfig 20 "2025-01-07" (fun l => l)
          (fun _ => SendResult.ok) sampleEngine
          [FetchRes.msg sampleMsg, FetchRes.failure]).leads ∧
    (findKey (run_nurturing_cycle defaultConfig 20 "2025-01-07" (fun l => l)
        (fun _ => SendResult.ok) sampleEngine
        [FetchRes.msg sampleMsg, FetchRes.failure]).leads "a@x.com").map
        Lead.response_count
      = some (sampleLead.response_count + 1) ∧
    (findKey (run_nurturing_cycle defaultConfig 21 "2025-01-08" (fun l => l)
        (fun _ => SendResult.ok)
        (run_nurturing_cycle defaultConfig 20 "2025-01-07" (fun l => l)
          (fun _ => SendResult.ok) sampleEngine
          [FetchRes.msg sampleMsg, FetchRes.failure])
        [FetchRes.msg sampleMsg]).leads "a@x.com").map Lead.response_count
      = some (sampleLead.response_count + 2)) :=
  C10_crash_retains_mutations defaultConfig 20 21 "2025-01-07" "2025-01-08"
    (fun l => l) (fun _ => SendResult.ok) sampleEngine sampleMsg "a@x.com" sampleLead
    rfl rfl (by decide)

end LeadNurture
